import Mathlib

/-!
Shallow embedding of the tool-calling CLI client (index.js and tools.js):
the conversation loop against the Ollama chat endpoint, the tool registry
dispatch, and the three tool adapters (calculator, current weather,
current date/time).  External effects (the chat endpoint, `child_process.exec`,
the weather HTTPS call) are modelled as oracles supplied to the embedded
functions; all embedded code itself is pure and executable.
-/

namespace LlmTools

/-! ## JavaScript value helpers

The source is JavaScript, so a few coercions matter: `a || b` on strings,
truthiness of numbers (0 is falsy) and of optional values (undefined is
falsy, an array — even empty — is truthy), and reading `.message` off a
thrown value (a string primitive has no `message` property, so the
interpolation prints "undefined"). -/

/-- JS `a || b` restricted to strings: the empty string is falsy. -/
def jsOrElse (a b : String) : String :=
  if a = "" then b else a

/-- JS truthiness of an optional number (`undefined` and `0` are falsy).
Numbers are modelled as `Int`; no claim depends on fractional values. -/
def jsTruthyNum : Option Int → Bool
  | none => false
  | some n => n != 0

/-- JS truthiness of an optional array (`undefined` falsy, any array —
including the empty one — truthy). -/
def jsTruthyList : Option (List α) → Bool
  | none => false
  | some _ => true

/-- JS truthiness of an optional string (`undefined` and `""` falsy). -/
def jsTruthyStr : Option String → Bool
  | none => false
  | some s => s != ""

/-- Whitespace as trimmed by JS `String.prototype.trim` (the kinds
occurring in tool output). -/
def isJsSpace (c : Char) : Bool :=
  c = ' ' || c = '\t' || c = '\n' || c = '\r'

/-- Trim a character list at both ends. -/
def trimChars (l : List Char) : List Char :=
  ((l.dropWhile isJsSpace).reverse.dropWhile isJsSpace).reverse

/-- JS `s.trim()`. -/
def jsTrim (s : String) : String :=
  String.mk (trimChars s.data)

/-- JS `s.split(sep)` on a single-character separator: `""` splits to
`[""]`, and a trailing separator yields a trailing empty piece. -/
def splitChars (sep : Char) : List Char → List (List Char)
  | [] => [[]]
  | c :: rest =>
      let r := splitChars sep rest
      if c = sep then [] :: r
      else
        match r with
        | cur :: done => (c :: cur) :: done
        | [] => [[c]]

/-- JS `s.split(sep)` as strings. -/
def jsSplit (sep : Char) (s : String) : List String :=
  (splitChars sep s.data).map String.mk

/-- Whether a string starts with `Error:`, the marker of the soft-failure
strings produced by the adapters and the loop. -/
def errorPrefixed (s : String) : Bool :=
  "Error:".data.isPrefixOf s.data

/-- A value thrown/rejected in JS: either a proper `Error` object carrying a
`message`, or a raw string (as `Calculator.run` rejects with
`stderr || error.message`). -/
inductive Thrown where
  | errObj (message : String)
  | str (s : String)
deriving DecidableEq, Repr

/-- What `${err.message}` interpolates for a thrown value: the message of an
`Error` object, but the string "undefined" when the thrown value is a raw
string primitive (a string has no `message` property). -/
def Thrown.jsMessage : Thrown → String
  | .errObj m => m
  | .str _ => "undefined"

/-! ## Calculator command construction (tools.js, Calculator.run)

`Calculator.run` builds the shell command
`bc -l -e '<expression with each single quote replaced by '\''>'`
and hands it to `child_process.exec`, which runs it through the shell.
We model the escaping on `List Char` to reason about shell tokenization. -/

/-- The JS replacement `expression.replace(/'/g, "'\\''")`: every single
quote becomes the four characters quote, backslash, quote, quote. -/
def escQuotes : List Char → List Char
  | [] => []
  | c :: rest =>
      if c = '\'' then '\'' :: '\\' :: '\'' :: '\'' :: escQuotes rest
      else c :: escQuotes rest

/-- The literal prefix `bc -l -e ` of the command string. -/
def bcPrefix : List Char := ['b', 'c', ' ', '-', 'l', ' ', '-', 'e', ' ']

/-- The full command passed to `exec`: `bc -l -e '<escaped expression>'`. -/
def calculatorCommandChars (expression : List Char) : List Char :=
  bcPrefix ++ '\'' :: (escQuotes expression ++ ['\''])

/-- String form of the calculator command, used as the key under which the
exec oracle answers. -/
def calculatorCommand (expression : String) : String :=
  String.mk (calculatorCommandChars expression.data)

/-! ## A model of POSIX shell command-line splitting

`child_process.exec` passes the command string to `/bin/sh -c`.  To state
the injection-safety property we model the relevant fragment of shell
tokenization: unquoted text is split on blanks, `;` and newline separate
commands, a backslash escapes the next character, and between single
quotes every character is literal.  The parser returns the list of
commands, each a list of argument words, or `none` on an unterminated
quote (a shell syntax error). -/

inductive ShMode where
  | normal
  | single
  | escaped
deriving DecidableEq, Repr

/-- One pass over the command characters.  `cur` is the word being built,
`started` records whether that word has begun (so `''` still yields an
empty argument), `args` the words of the current command, `cmds` the
completed commands. -/
def shRun : List Char → ShMode → List Char → Bool → List (List Char) →
    List (List (List Char)) → Option (List (List (List Char)))
  | [], mode, cur, started, args, cmds =>
      match mode with
      | .normal =>
          let args' := if started then args ++ [cur] else args
          some (if args' = [] then cmds else cmds ++ [args'])
      | _ => none
  | c :: rest, mode, cur, started, args, cmds =>
      match mode with
      | .escaped =>
          if c = '\n' then shRun rest .normal cur started args cmds
          else shRun rest .normal (cur ++ [c]) true args cmds
      | .single =>
          if c = '\'' then shRun rest .normal cur started args cmds
          else shRun rest .single (cur ++ [c]) started args cmds
      | .normal =>
          if c = '\'' then shRun rest .single cur true args cmds
          else if c = '\\' then shRun rest .escaped cur true args cmds
          else if c = ' ' ∨ c = '\t' then
            if started then shRun rest .normal [] false (args ++ [cur]) cmds
            else shRun rest .normal cur started args cmds
          else if c = ';' ∨ c = '\n' then
            let args' := if started then args ++ [cur] else args
            shRun rest .normal [] false []
              (if args' = [] then cmds else cmds ++ [args'])
          else shRun rest .normal (cur ++ [c]) true args cmds

/-- Split a command line into commands and argument words. -/
def shellSplit (cmd : List Char) : Option (List (List (List Char))) :=
  shRun cmd .normal [] false [] []

/-! ## Outcomes of external effects

`child_process.exec` reports an optional error (present on non-zero exit,
carrying `error.message`), the standard output and the standard error
text.  The weather HTTPS fetch either fails, returns unparseable JSON, or
returns a parsed JSON document (`parsed none` models a falsy document
such as `null`). -/

structure ExecOutcome where
  error : Option String
  stdout : String
  stderr : String
deriving DecidableEq, Repr

/-- A tool adapter either resolves with a string or rejects with a thrown
value. -/
inductive ExecResult where
  | ok (s : String)
  | err (t : Thrown)
deriving DecidableEq, Repr

/-- The `exec` callback in `Calculator.run` and `GetCurrentDateTime.run`:
on error reject with `stderr || error.message` (a raw string, not an
`Error` object), otherwise resolve with `stdout.trim()`. -/
def execInterp (o : ExecOutcome) : ExecResult :=
  match o.error with
  | some msg => .err (.str (jsOrElse o.stderr msg))
  | none => .ok (jsTrim o.stdout)

namespace Calculator

/-- `Calculator.run`: build `bc -l -e '<escaped expression>'`, hand it to
the shell via `exec` (modelled by an oracle keyed on the command string),
and interpret the callback. -/
def run (execOracle : String → ExecOutcome) (expression : String) : ExecResult :=
  execInterp (execOracle (calculatorCommand expression))

end Calculator

namespace GetCurrentDateTime

/-- `GetCurrentDateTime.run`: execute the `date` command and interpret the
callback exactly as the calculator does. -/
def run (execOracle : String → ExecOutcome) : ExecResult :=
  execInterp (execOracle "date")

end GetCurrentDateTime

/-! ## The weather adapter (tools.js, GetCurrentWeather.run) -/

/-- Parsed fields of the Open-Meteo `current` object.  JS numbers are
modelled as `Int`; no claim depends on fractional values. -/
structure CurrentConditions where
  time : String
  temperature_2m : Int
  precipitation : Int
  weather_code : Int
  wind_direction_10m : Int
  wind_speed_10m : Int
  relative_humidity_2m : Int
  is_day : Int
  showers : Int
  snowfall : Int
deriving DecidableEq, Repr

/-- Parsed weather response document. `current` is optional: the code
checks `!weatherData.current`. -/
structure WeatherDoc where
  current : Option CurrentConditions
  timezone_abbreviation : String
deriving DecidableEq, Repr

/-- Outcome of the weather HTTPS fetch: connection error, JSON parse
failure, or a parsed document (`parsed none` models a falsy document). -/
inductive NetOutcome where
  | failed
  | badJson
  | parsed (v : Option WeatherDoc)
deriving DecidableEq, Repr

/-- JS template interpolation of an optional number (an absent value
prints "undefined"). -/
def jsShowNum : Option Int → String
  | some n => toString n
  | none => "undefined"

/-- The Open-Meteo request URL built from the latitude/longitude values. -/
def weatherUrl (latitude longitude : Option Int) : String :=
  "https://api.open-meteo.com/v1/forecast?" ++
    String.intercalate "&"
      ["latitude=" ++ jsShowNum latitude,
       "longitude=" ++ jsShowNum longitude,
       "current=temperature_2m,precipitation,weather_code,wind_direction_10m,wind_speed_10m,relative_humidity_2m,is_day,showers,snowfall"]

/-- The fixed `weatherCodeMap` lookup table. -/
def weatherCodeMap : Int → Option String
  | 0 => some "Clear"
  | 1 => some "Mostly Clear"
  | 2 => some "Partly Cloudy"
  | 3 => some "Cloudy"
  | 45 => some "Fog"
  | 48 => some "Freezing Fog"
  | 51 => some "Light Drizzle"
  | 53 => some "Drizzle"
  | 55 => some "Heavy Drizzle"
  | 56 => some "Light Freezing Drizzle"
  | 57 => some "Freezing Drizzle"
  | 61 => some "Light Rain"
  | 63 => some "Rain"
  | 65 => some "Heavy Rain"
  | 66 => some "Light Freezing Rain"
  | 67 => some "Freezing Rain"
  | 71 => some "Light Snow"
  | 73 => some "Snow"
  | 75 => some "Heavy Snow"
  | 77 => some "Snow Grains"
  | 80 => some "Light Rain Shower"
  | 81 => some "Rain Shower"
  | 82 => some "Heavy Rain Shower"
  | 85 => some "Snow Shower"
  | 86 => some "Heavy Snow Shower"
  | 95 => some "Thunderstorm"
  | 96 => some "Thunderstorm with Hail"
  | 99 => some "Heavy Thunderstorm with Hail"
  | _ => none

/-- The formatted multi-line weather summary returned on success. -/
def weatherSummary (latitude longitude : Option Int) (doc : WeatherDoc)
    (curr : CurrentConditions) : String :=
  let weatherDesc :=
    match weatherCodeMap curr.weather_code with
    | some d => d
    | none => "Unknown (" ++ toString curr.weather_code ++ ")"
  "Weather for (lat: " ++ jsShowNum latitude ++ ", lon: " ++ jsShowNum longitude ++ "):\n" ++
    "- Time: " ++ curr.time ++ " (" ++ doc.timezone_abbreviation ++ ")\n" ++
    "- Temperature: " ++ toString curr.temperature_2m ++ "°C\n" ++
    "- Weather: " ++ weatherDesc ++ "\n" ++
    "- Precipitation: " ++ toString curr.precipitation ++ " mm\n" ++
    "- Wind: " ++ toString curr.wind_speed_10m ++ " km/h at " ++
      toString curr.wind_direction_10m ++ "°\n" ++
    "- Humidity: " ++ toString curr.relative_humidity_2m ++ "%\n" ++
    "- Is Day: " ++ (if curr.is_day != 0 then "Yes" else "No") ++ "\n" ++
    "- Showers: " ++ toString curr.showers ++ " mm\n" ++
    "- Snowfall: " ++ toString curr.snowfall ++ " cm"

/-- Result of the weather adapter plus the ghost flag recording whether the
network fetch was performed. -/
structure WeatherResult where
  output : String
  fetched : Bool
deriving DecidableEq, Repr

namespace GetCurrentWeather

/-- `GetCurrentWeather.run`: truthiness check on latitude/longitude, then
fetch (modelled by an oracle keyed on the request URL), then the three
soft-failure branches, then the formatted summary.  The adapter always
resolves with a string — it never rejects. -/
def run (netOracle : String → NetOutcome) (latitude longitude : Option Int) :
    WeatherResult :=
  if !(jsTruthyNum latitude) || !(jsTruthyNum longitude) then
    { output := "Error: latitude and longitude are required.", fetched := false }
  else
    match netOracle (weatherUrl latitude longitude) with
    | .failed => { output := "Error: Failed to fetch weather data.", fetched := true }
    | .badJson => { output := "Error: Failed to fetch weather data.", fetched := true }
    | .parsed none => { output := "Error: No weather data available.", fetched := true }
    | .parsed (some doc) =>
        match doc.current with
        | none => { output := "Error: No weather data available.", fetched := true }
        | some curr => { output := weatherSummary latitude longitude doc curr, fetched := true }

end GetCurrentWeather

/-! ## Tool calls, the dispatch chain, and the message transcript
(index.js) -/

/-- Arguments of a tool call, following the advertised schemas: the
calculator takes an `expression` string, the weather tool takes
`latitude`/`longitude` numbers (optional here because the code tests them
for truthiness rather than presence). -/
structure ToolArgs where
  expression : String := ""
  latitude : Option Int := none
  longitude : Option Int := none
deriving DecidableEq, Repr

/-- The `function` field of a tool call emitted by the model. -/
structure ToolCallFunction where
  name : String
  arguments : ToolArgs
deriving DecidableEq, Repr

/-- A tool call as received from the endpoint (`toolCall.function.name`,
`toolCall.function.arguments`). -/
structure ToolCall where
  function : ToolCallFunction
deriving DecidableEq, Repr

/-- The external world consulted by the adapters: `exec` answers shell
commands (keyed by the command string), `net` answers HTTPS GET requests
(keyed by the URL). -/
structure World where
  exec : String → ExecOutcome
  net : String → NetOutcome

/-- `executeToolCall` (index.js): the if/else dispatch chain over the tool
name; an unrecognized name throws `Error` with message
`Unknown tool: <name>`. -/
def executeToolCall (world : World) (toolCall : ToolCall) : ExecResult :=
  let name := toolCall.function.name
  let args := toolCall.function.arguments
  if name = "calculator" then
    Calculator.run world.exec args.expression
  else if name = "get_current_weather" then
    .ok (GetCurrentWeather.run world.net args.latitude args.longitude).output
  else if name = "get_current_datetime" then
    GetCurrentDateTime.run world.exec
  else
    .err (.errObj ("Unknown tool: " ++ name))

inductive Role where
  | user
  | assistant
  | tool
deriving DecidableEq, Repr

/-- One transcript entry, as pushed onto `messages` in `main`. -/
structure Message where
  role : Role
  content : String
  tool_calls : Option (List ToolCall) := none
deriving DecidableEq, Repr

/-- The `message` object of an endpoint response (`response.message`). -/
structure RespMsg where
  content : String
  tool_calls : Option (List ToolCall) := none
deriving DecidableEq, Repr

/-- One endpoint response. -/
structure Response where
  message : RespMsg
deriving DecidableEq, Repr

/-- Result of a completed run of the conversation loop.  `transcript` is
the final `messages` list; `dispatched` and `calls` are ghost
instrumentation recording which tool calls were executed and how many
endpoint calls were made. -/
structure RunResult where
  transcript : List Message
  dispatched : List ToolCall
  calls : Nat
deriving DecidableEq, Repr

/-- The assistant message pushed for an endpoint reply:
`{ role: 'assistant', content: assistantMsg.content || '',
tool_calls: assistantMsg.tool_calls }`. -/
def assistantMessage (r : Response) : Message :=
  { role := .assistant, content := jsOrElse r.message.content "",
    tool_calls := r.message.tool_calls }

/-- The tool message pushed after a dispatch: the stringified result on
success, `Error: ${err.message}` on failure. -/
def toolMessage (world : World) (tc : ToolCall) : Message :=
  match executeToolCall world tc with
  | .ok s => { role := .tool, content := s }
  | .err t => { role := .tool, content := "Error: " ++ t.jsMessage }

/-- The `while (true)` loop of `main`.  The endpoint is modelled as a
script: the list of replies it would return to the successive `callLLM`
invocations.  Each iteration consumes one reply, appends the assistant
message, and either dispatches the first tool call (appending the tool
message and looping) or terminates.  `none` means the script was
exhausted while the loop still wanted another endpoint call. -/
def runLoop (world : World) : List Response → List Message → Option RunResult
  | [], _ => none
  | r :: rest, ms =>
      match r.message.tool_calls with
      | some (tc :: _) =>
          (runLoop world rest (ms ++ [assistantMessage r, toolMessage world tc])).map
            (fun o => { o with dispatched := tc :: o.dispatched, calls := o.calls + 1 })
      | _ => some { transcript := ms ++ [assistantMessage r], dispatched := [], calls := 1 }

/-- The seed transcript: `[{ role: 'user', content: prompt }]`. -/
def seedMessages (prompt : String) : List Message :=
  [{ role := .user, content := prompt }]

/-- The final answer printed by `main`:
`messages[messages.length - 1].content`. -/
def finalAnswer (ms : List Message) : String :=
  match ms.getLast? with
  | some m => m.content
  | none => ""

/-! ## Tool advertisement and the endpoint payload (callLLM and the
tool-selection block of main) -/

/-- The `function` part of a static tool descriptor.  The JSON-Schema
`parameters` object is static data never inspected by the embedded
control flow, so it is not modelled field by field. -/
structure ToolDescriptorFunction where
  name : String
  description : String
deriving DecidableEq, Repr

/-- A static tool descriptor (`{type: "function", function: {...}}`). -/
structure ToolDescriptor where
  type : String
  function : ToolDescriptorFunction
deriving DecidableEq, Repr

/-- The `toolDefinitions` array of tools.js, in registry order. -/
def toolDefinitions : List ToolDescriptor :=
  [{ type := "function",
     function :=
      { name := "get_current_weather",
        description := "Get the current weather for a location using Open-Meteo API. Requires latitude and longitude as input, queries Open-Meteo for current weather, and returns a structured summary including mapped weather code." } },
   { type := "function",
     function :=
      { name := "get_current_datetime",
        description := "Get the current date and time (e.g. \x27Sat  3 May 2025 19:33:34 BST\x27)" } },
   { type := "function",
     function :=
      { name := "calculator",
        description := "Perform basic arithmetic calculations such as addition, subtraction, multiplication, and division" } }]

/-- The parsed tool names of a `-t` value:
`argv.tools.split(',').map(s => s.trim()).filter(Boolean)`. -/
def parsedToolNames (s : String) : List String :=
  ((jsSplit ',' s).map jsTrim).filter (fun x => x ≠ "")

/-- The tool-selection block of `main`: if `argv.tools` is truthy, split it
on commas, trim, drop empty entries (`filter(Boolean)`), and keep the
definitions whose names were requested; otherwise leave `tools`
undefined. -/
def selectTools (argvTools : Option String) : Option (List ToolDescriptor) :=
  if jsTruthyStr argvTools then
    let requestedTools := parsedToolNames (argvTools.getD "")
    some (toolDefinitions.filter (fun td => requestedTools.contains td.function.name))
  else
    none

/-- The JSON payload of one `callLLM` request.  `tools = none` means the
field is absent from the serialized object. -/
structure Payload where
  model : String
  messages : List Message
  stream : Bool
  temperature : Int
  tools : Option (List ToolDescriptor)
deriving DecidableEq, Repr

/-- `callLLM` payload construction: the fixed fields, then
`if (tools) payload.tools = tools` — any array, even the empty one, is
truthy. -/
def buildPayload (model : String) (messages : List Message)
    (tools : Option (List ToolDescriptor)) : Payload :=
  { model := model, messages := messages, stream := false, temperature := 0,
    tools := if jsTruthyList tools then tools else none }

/-! ## Instrumented views used to state the claims -/

/-- Two successive invocations of the calculator adapter, the exec oracle
now indexed by the invocation number so that the two invocations may in
principle observe different external behaviour. -/
def Calculator.runAt (execOracle : Nat → String → ExecOutcome) (i : Nat)
    (expression : String) : ExecResult :=
  execInterp (execOracle i (calculatorCommand expression))

/-- The first tool call of each scripted reply that carries a non-empty
`tool_calls` sequence. -/
def firstToolCalls (script : List Response) : List ToolCall :=
  script.filterMap (fun r =>
    match r.message.tool_calls with
    | some (tc :: _) => some tc
    | _ => none)

/-- Whether a transcript entry is a tool-role message. -/
def isToolRole (m : Message) : Bool :=
  match m.role with
  | .tool => true
  | _ => false

/-- Whether a message carries a non-empty `tool_calls` sequence. -/
def nonemptyToolCalls (m : Message) : Bool :=
  match m.tool_calls with
  | some (_ :: _) => true
  | _ => false

/-- Whether a transcript entry is an assistant message that requested at
least one tool call. -/
def isDispatchAssistant (m : Message) : Bool :=
  match m.role with
  | .assistant => nonemptyToolCalls m
  | _ => false

/-- Adjacency requirement of the transcript invariant: a tool-role message
may only stand immediately after an assistant message that issued at
least one tool call. -/
def ToolPlacement (prev next : Message) : Prop :=
  next.role = Role.tool → prev.role = Role.assistant ∧ nonemptyToolCalls prev = true

instance : DecidableRel ToolPlacement := fun _ _ => by
  unfold ToolPlacement; infer_instance

/-- A fixed external world used to instantiate theorems on concrete runs:
every shell command succeeds with empty output and every network fetch
fails. -/
def stubWorld : World :=
  { exec := fun _ => { error := none, stdout := "", stderr := "" },
    net := fun _ => .failed }

/-- A concrete date/time tool call. -/
def dtCall : ToolCall :=
  { function := { name := "get_current_datetime", arguments := {} } }

/-- A concrete calculator tool call. -/
def calcCall : ToolCall :=
  { function := { name := "calculator", arguments := { expression := "2+2" } } }

/-- A concrete reply requesting two tool calls in one turn. -/
def twoCallReply : Response :=
  { message := { content := "", tool_calls := some [dtCall, calcCall] } }

/-- A concrete final reply with no tool calls. -/
def doneReply : Response :=
  { message := { content := "done", tool_calls := none } }

/-- The script of a concrete two-iteration run. -/
def twoTurnScript : List Response :=
  [twoCallReply, doneReply]

/-- A concrete weather tool call whose arguments carry no coordinates. -/
def weatherCall : ToolCall :=
  { function := { name := "get_current_weather", arguments := {} } }

/-- A concrete reply requesting the weather tool. -/
def weatherReply : Response :=
  { message := { content := "", tool_calls := some [weatherCall] } }

/-- The completed run of `twoTurnScript` against `stubWorld` from the seed
prompt `now?`. -/
def twoTurnOut : RunResult :=
  { transcript :=
      [{ role := .user, content := "now?" },
       { role := .assistant, content := "", tool_calls := some [dtCall, calcCall] },
       { role := .tool, content := "" },
       { role := .assistant, content := "done", tool_calls := none }],
    dispatched := [dtCall],
    calls := 2 }

/-! ## Supporting lemmas -/

@[simp] theorem jsOrElse_empty_right (s : String) : jsOrElse s "" = s := by
  unfold jsOrElse; split <;> simp_all

theorem escQuotes_cons_quote (t : List Char) :
    escQuotes ('\'' :: t) = '\'' :: '\\' :: '\'' :: '\'' :: escQuotes t := by
  simp [escQuotes]

theorem escQuotes_cons_other {c : Char} (h : c ≠ '\'') (t : List Char) :
    escQuotes (c :: t) = c :: escQuotes t := by
  simp [escQuotes, h]

/-- Inside single quotes, an escaped expression followed by the closing
quote is consumed verbatim into the current word. -/
theorem shRun_escQuotes (s : List Char) : ∀ (cur : List Char) (rest : List Char)
    (args : List (List Char)) (cmds : List (List (List Char))),
    shRun (escQuotes s ++ '\'' :: rest) .single cur true args cmds =
      shRun rest .normal (cur ++ s) true args cmds := by
  induction s with
  | nil =>
      intro cur rest args cmds
      simp [escQuotes, shRun]
  | cons c t ih =>
      intro cur rest args cmds
      by_cases hc : c = '\''
      · subst hc
        rw [escQuotes_cons_quote, List.cons_append, List.cons_append,
          List.cons_append, List.cons_append]
        rw [show shRun ('\'' :: '\\' :: '\'' :: '\'' :: (escQuotes t ++ '\'' :: rest))
              .single cur true args cmds =
            shRun (escQuotes t ++ '\'' :: rest) .single (cur ++ ['\'']) true args cmds from rfl]
        rw [ih]
        simp
      · rw [escQuotes_cons_other hc, List.cons_append]
        rw [show shRun (c :: (escQuotes t ++ '\'' :: rest)) .single cur true args cmds =
            shRun (escQuotes t ++ '\'' :: rest) .single (cur ++ [c]) true args cmds from by
          simp [shRun, hc]]
        rw [ih]
        simp

/-! ## Claim C6 -/

/-- C6: for every expression string, the single-quote escaping performed by
`Calculator.run` neutralizes shell metacharacters: the command handed to
the shell parses as exactly one command, `bc -l -e <expression>`, with
the original expression intact as a single argument — so an input such as
`1; rm -rf /` can only ever reach `bc` as its expression argument, never
a second command. -/
theorem c6_shell_metacharacters_neutralized (expression : List Char) :
    shellSplit (calculatorCommandChars expression) =
      some [[['b', 'c'], ['-', 'l'], ['-', 'e'], expression]] := by
  show shRun (bcPrefix ++ '\'' :: (escQuotes expression ++ ['\''])) .normal [] false [] [] = _
  rw [show bcPrefix ++ '\'' :: (escQuotes expression ++ ['\'']) =
      'b' :: 'c' :: ' ' :: '-' :: 'l' :: ' ' :: '-' :: 'e' :: ' ' :: '\'' ::
        (escQuotes expression ++ '\'' :: []) from by simp [bcPrefix]]
  rw [show shRun ('b' :: 'c' :: ' ' :: '-' :: 'l' :: ' ' :: '-' :: 'e' :: ' ' :: '\'' ::
        (escQuotes expression ++ '\'' :: [])) .normal [] false [] [] =
      shRun (escQuotes expression ++ '\'' :: []) .single [] true
        [['b', 'c'], ['-', 'l'], ['-', 'e']] [] from rfl]
  rw [shRun_escQuotes]
  simp [shRun]

/-! ## Claim C9 -/

/-- C9: invoking the Calculator adapter twice with the same expression
string yields the same result, provided the external evaluator behaves
deterministically (it answers the second invocation exactly as the
first, for every command) — the command handed to it is a function of
the expression alone. -/
theorem c9_calculator_repeat_same_result (execOracle : Nat → String → ExecOutcome)
    (expression : String)
    (hdet : ∀ cmd, execOracle 0 cmd = execOracle 1 cmd) :
    Calculator.runAt execOracle 0 expression = Calculator.runAt execOracle 1 expression := by
  unfold Calculator.runAt
  rw [hdet]

theorem c9_witness :
    Calculator.runAt (fun _ _ => { error := none, stdout := "4\n", stderr := "" }) 0 "2+2" =
      Calculator.runAt (fun _ _ => { error := none, stdout := "4\n", stderr := "" }) 1 "2+2" :=
  c9_calculator_repeat_same_result (fun _ _ => { error := none, stdout := "4\n", stderr := "" })
    "2+2" (fun _ => rfl)

/-! ## Claim C10 -/

/-- C10: when latitude or longitude is present and equal to 0, the weather
adapter takes the missing-field branch — presence is tested by
truthiness, and 0 is falsy — so it returns
`Error: latitude and longitude are required.` and performs no network
call. -/
theorem c10_zero_coordinate_rejected_without_fetch (netOracle : String → NetOutcome)
    (a b : Int) (h : a = 0 ∨ b = 0) :
    GetCurrentWeather.run netOracle (some a) (some b) =
      { output := "Error: latitude and longitude are required.", fetched := false } := by
  unfold GetCurrentWeather.run
  rcases h with h | h <;> subst h <;> simp [jsTruthyNum]

theorem c10_witness :
    GetCurrentWeather.run (fun _ => .parsed none) (some 0) (some 7) =
      { output := "Error: latitude and longitude are required.", fetched := false } :=
  c10_zero_coordinate_rejected_without_fetch (fun _ => .parsed none) 0 7 (Or.inl rfl)

/-! ## Claim C3 -/

/-- C3 counterexample: with `-t ","` the user selected zero tool names
(`split`/`trim`/`filter(Boolean)` yields the empty list), yet the payload
carries a `tools` field — the empty array, which is truthy in JS.  This
refutes the claim that the `tools` field is present only if at least one
tool name was selected. -/
theorem c3_counterexample_comma_flag_sends_empty_tools :
    parsedToolNames "," = [] ∧
    (buildPayload "qwen3:4b" (seedMessages "hi") (selectTools (some ","))).tools = some [] ∧
    (buildPayload "qwen3:4b" (seedMessages "hi") (selectTools (some ","))).tools ≠ none := by
  refine ⟨by decide, by decide, by decide⟩

/-- C3 amended: the payload omits the `tools` field exactly when the `-t`
flag is absent or its value is the empty string; any other value makes
the field present, holding the registry entries whose names were
requested — possibly the empty list when no requested name matches. -/
theorem c3_amended_tools_field_presence (model : String) (messages : List Message) :
    (buildPayload model messages (selectTools none)).tools = none ∧
    ∀ s : String, (buildPayload model messages (selectTools (some s))).tools =
      (if s = "" then none
       else some (toolDefinitions.filter
         (fun td => (parsedToolNames s).contains td.function.name))) := by
  constructor
  · rfl
  · intro s
    by_cases hs : s = ""
    · subst hs; rfl
    · simp [selectTools, buildPayload, jsTruthyStr, jsTruthyList, hs]

/-! ## Claim C2 -/

/-- C2: when the calculator invocation fails (`bc` exits non-zero with a
diagnostic on stderr), the loop does not abort — it appends a tool-role
message and performs another endpoint call (two calls in this run) — but
the appended content is `Error: undefined`, not a string containing the
diagnostic text: `Calculator.run` rejects with the raw string
`stderr || error.message`, and reading `.message` off a string primitive
yields `undefined`.  The diagnostic `bc: syntax error` is lost. -/
theorem c2_calculator_failure_drops_diagnostic :
    runLoop
      { exec := fun _ => { error := some "Command failed: bc -l -e \x271/\x27", stdout := "", stderr := "bc: syntax error" }, net := fun _ => .failed }
      [{ message := { content := "", tool_calls := some [{ function := { name := "calculator", arguments := { expression := "1/" } } }] } },
       { message := { content := "The expression is malformed.", tool_calls := none } }]
      (seedMessages "compute 1/") =
      some { transcript :=
               [{ role := .user, content := "compute 1/" },
                { role := .assistant, content := "", tool_calls := some [{ function := { name := "calculator", arguments := { expression := "1/" } } }] },
                { role := .tool, content := "Error: undefined" },
                { role := .assistant, content := "The expression is malformed.", tool_calls := none }],
             dispatched := [{ function := { name := "calculator", arguments := { expression := "1/" } } }],
             calls := 2 } := by
  decide

/-! ## Claim C7 -/

/-- C7: if the first endpoint reply carries no tool calls (the field is
absent or the empty list), the loop terminates after exactly one
endpoint call, and the surfaced final answer is that reply's assistant
content. -/
theorem c7_no_tool_calls_terminates_after_one_call (world : World) (prompt : String)
    (r : Response) (rest : List Response)
    (h : r.message.tool_calls = none ∨ r.message.tool_calls = some []) :
    runLoop world (r :: rest) (seedMessages prompt) =
      some { transcript := seedMessages prompt ++ [assistantMessage r],
             dispatched := [], calls := 1 } ∧
    finalAnswer (seedMessages prompt ++ [assistantMessage r]) = r.message.content := by
  constructor
  · rcases h with h | h <;> simp [runLoop, h]
  · show finalAnswer [_, assistantMessage r] = _
    simp [finalAnswer, assistantMessage, List.getLast?]

theorem c7_witness :
    runLoop stubWorld [{ message := { content := "Paris", tool_calls := none } }]
        (seedMessages "capital of France?") =
      some { transcript := seedMessages "capital of France?" ++
               [assistantMessage { message := { content := "Paris", tool_calls := none } }],
             dispatched := [], calls := 1 } ∧
    finalAnswer (seedMessages "capital of France?" ++
        [assistantMessage { message := { content := "Paris", tool_calls := none } }]) =
      "Paris" :=
  c7_no_tool_calls_terminates_after_one_call stubWorld "capital of France?"
    { message := { content := "Paris", tool_calls := none } } [] (Or.inl rfl)

/-! ## Claim C1 -/

/-- C1: on every completed run, the tool calls the loop dispatched are
exactly the first entries of the non-empty `tool_calls` sequences of the
consumed replies — one dispatch per such reply, always the first call,
every later call of the same turn ignored. -/
theorem c1_only_first_tool_call_dispatched (world : World) :
    ∀ (script : List Response) (ms : List Message) (out : RunResult),
    runLoop world script ms = some out →
    out.dispatched = firstToolCalls (script.take out.calls) := by
  intro script
  induction script with
  | nil =>
      intro ms out h
      simp [runLoop] at h
  | cons r rest ih =>
      intro ms out h
      rcases hr : r.message.tool_calls with _ | tcs
      · simp only [runLoop] at h
        rw [hr] at h
        simp only [Option.some.injEq] at h
        subst h
        simp [firstToolCalls, hr]
      · cases tcs with
        | nil =>
            simp only [runLoop] at h
            rw [hr] at h
            simp only [Option.some.injEq] at h
            subst h
            simp [firstToolCalls, hr]
        | cons tc tcs2 =>
            simp only [runLoop] at h
            rw [hr] at h
            simp only [Option.map_eq_some'] at h
            rcases h with ⟨o, ho, hout⟩
            subst hout
            simp only [List.take_succ_cons, firstToolCalls, List.filterMap_cons, hr]
            exact congrArg (tc :: ·) (ih _ _ ho)

theorem c1_witness :
    runLoop stubWorld twoTurnScript (seedMessages "now?") = some twoTurnOut ∧
    twoTurnOut.dispatched = firstToolCalls (twoTurnScript.take twoTurnOut.calls) :=
  ⟨by decide,
   c1_only_first_tool_call_dispatched stubWorld twoTurnScript (seedMessages "now?")
     twoTurnOut (by decide)⟩

/-! ## Claim C5 -/

/-- C5: a tool call whose name is none of the registered ones makes
`executeToolCall` fail with the unknown-tool error, and the failure is
non-fatal: the loop appends a tool-role message carrying that error text
and proceeds with the rest of the conversation (the recursion continues
into the next endpoint call). -/
theorem c5_unknown_tool_error_fed_back (world : World) (r : Response)
    (rest : List Response) (ms : List Message) (tc : ToolCall) (tcs : List ToolCall)
    (hr : r.message.tool_calls = some (tc :: tcs))
    (h1 : tc.function.name ≠ "calculator")
    (h2 : tc.function.name ≠ "get_current_weather")
    (h3 : tc.function.name ≠ "get_current_datetime") :
    executeToolCall world tc = .err (.errObj ("Unknown tool: " ++ tc.function.name)) ∧
    runLoop world (r :: rest) ms =
      (runLoop world rest (ms ++ [assistantMessage r,
        { role := .tool, content := "Error: " ++ ("Unknown tool: " ++ tc.function.name) }])).map
        (fun o => { o with dispatched := tc :: o.dispatched, calls := o.calls + 1 }) := by
  have he : executeToolCall world tc =
      .err (.errObj ("Unknown tool: " ++ tc.function.name)) := by
    simp [executeToolCall, h1, h2, h3]
  refine ⟨he, ?_⟩
  have ht : toolMessage world tc =
      { role := .tool, content := "Error: " ++ ("Unknown tool: " ++ tc.function.name) } := by
    simp [toolMessage, he, Thrown.jsMessage]
  simp only [runLoop]
  rw [hr, ← ht]

/-- A concrete tool call with an unregistered name. -/
theorem c5_witness :
    (({ function := { name := "frobnicate", arguments := {} } } : ToolCall).function.name ≠
        "calculator" ∧
      ({ function := { name := "frobnicate", arguments := {} } } : ToolCall).function.name ≠
        "get_current_weather" ∧
      ({ function := { name := "frobnicate", arguments := {} } } : ToolCall).function.name ≠
        "get_current_datetime") ∧
    (executeToolCall stubWorld { function := { name := "frobnicate", arguments := {} } } =
        .err (.errObj ("Unknown tool: " ++ "frobnicate")) ∧
      runLoop stubWorld
          [{ message := { content := "", tool_calls := some [{ function := { name := "frobnicate", arguments := {} } }] } }, doneReply]
          (seedMessages "go") =
        (runLoop stubWorld [doneReply] (seedMessages "go" ++
          [assistantMessage { message := { content := "", tool_calls := some [{ function := { name := "frobnicate", arguments := {} } }] } },
           { role := .tool, content := "Error: " ++ ("Unknown tool: " ++ "frobnicate") }])).map
          (fun o => { o with
            dispatched := ({ function := { name := "frobnicate", arguments := {} } } : ToolCall) :: o.dispatched,
            calls := o.calls + 1 })) :=
  ⟨⟨by decide, by decide, by decide⟩,
   c5_unknown_tool_error_fed_back stubWorld
     { message := { content := "", tool_calls := some [{ function := { name := "frobnicate", arguments := {} } }] } }
     [doneReply] (seedMessages "go")
     { function := { name := "frobnicate", arguments := {} } } []
     rfl (by decide) (by decide) (by decide)⟩

/-! ## Claim C4 -/

/-- C4: whenever a required coordinate is missing or the network fetch
fails or its response cannot be parsed, the weather adapter returns an
`Error:`-prefixed descriptive string; the adapter never rejects — its
dispatch through `executeToolCall` is always an `ok` — and the loop
appends the string as a tool message and carries on with the next
endpoint call. -/
theorem c4_weather_fails_soft (world : World) (latitude longitude : Option Int)
    (r : Response) (rest : List Response) (ms : List Message)
    (tc : ToolCall) (tcs : List ToolCall)
    (hr : r.message.tool_calls = some (tc :: tcs))
    (hn : tc.function.name = "get_current_weather")
    (hmiss : latitude = none ∨ longitude = none ∨
      world.net (weatherUrl latitude longitude) = .failed ∨
      world.net (weatherUrl latitude longitude) = .badJson) :
    errorPrefixed (GetCurrentWeather.run world.net latitude longitude).output = true ∧
    executeToolCall world tc =
      .ok (GetCurrentWeather.run world.net tc.function.arguments.latitude
        tc.function.arguments.longitude).output ∧
    runLoop world (r :: rest) ms =
      (runLoop world rest (ms ++ [assistantMessage r,
        { role := .tool, content := (GetCurrentWeather.run world.net
            tc.function.arguments.latitude tc.function.arguments.longitude).output }])).map
        (fun o => { o with dispatched := tc :: o.dispatched, calls := o.calls + 1 }) := by
  have he : executeToolCall world tc =
      .ok (GetCurrentWeather.run world.net tc.function.arguments.latitude
        tc.function.arguments.longitude).output := by
    simp [executeToolCall, hn]
  refine ⟨?_, he, ?_⟩
  · rcases hmiss with h | h | h | h
    · subst h
      simp [GetCurrentWeather.run, jsTruthyNum]
      decide
    · subst h
      simp [GetCurrentWeather.run, jsTruthyNum]
      decide
    · by_cases hla : jsTruthyNum latitude = true
      · by_cases hlo : jsTruthyNum longitude = true
        · simp [GetCurrentWeather.run, hla, hlo, h]
          decide
        · simp only [Bool.not_eq_true] at hlo
          simp [GetCurrentWeather.run, hlo]
          decide
      · simp only [Bool.not_eq_true] at hla
        simp [GetCurrentWeather.run, hla]
        decide
    · by_cases hla : jsTruthyNum latitude = true
      · by_cases hlo : jsTruthyNum longitude = true
        · simp [GetCurrentWeather.run, hla, hlo, h]
          decide
        · simp only [Bool.not_eq_true] at hlo
          simp [GetCurrentWeather.run, hlo]
          decide
      · simp only [Bool.not_eq_true] at hla
        simp [GetCurrentWeather.run, hla]
        decide
  · have ht : toolMessage world tc =
        { role := .tool, content := (GetCurrentWeather.run world.net
            tc.function.arguments.latitude tc.function.arguments.longitude).output } := by
      simp [toolMessage, he]
    simp only [runLoop]
    rw [hr, ← ht]

theorem c4_witness :
    errorPrefixed (GetCurrentWeather.run stubWorld.net none none).output = true ∧
    executeToolCall stubWorld weatherCall =
      .ok (GetCurrentWeather.run stubWorld.net weatherCall.function.arguments.latitude
        weatherCall.function.arguments.longitude).output ∧
    runLoop stubWorld (weatherReply :: [doneReply]) (seedMessages "weather?") =
      (runLoop stubWorld [doneReply] (seedMessages "weather?" ++ [assistantMessage weatherReply,
        { role := .tool, content := (GetCurrentWeather.run stubWorld.net
            weatherCall.function.arguments.latitude
            weatherCall.function.arguments.longitude).output }])).map
        (fun o => { o with dispatched := weatherCall :: o.dispatched, calls := o.calls + 1 }) :=
  c4_weather_fails_soft stubWorld none none weatherReply [doneReply] (seedMessages "weather?")
    weatherCall [] rfl rfl (Or.inl rfl)

/-! ## Claim C8 -/

theorem toolMessage_role (world : World) (tc : ToolCall) :
    (toolMessage world tc).role = Role.tool := by
  cases h : executeToolCall world tc <;> simp [toolMessage, h]

theorem toolMessage_tool_calls (world : World) (tc : ToolCall) :
    (toolMessage world tc).tool_calls = none := by
  cases h : executeToolCall world tc <;> simp [toolMessage, h]

theorem isToolRole_toolMessage (world : World) (tc : ToolCall) :
    isToolRole (toolMessage world tc) = true := by
  unfold isToolRole
  rw [toolMessage_role]

theorem isDispatchAssistant_toolMessage (world : World) (tc : ToolCall) :
    isDispatchAssistant (toolMessage world tc) = false := by
  unfold isDispatchAssistant
  rw [toolMessage_role]

theorem toolPlacement_to_assistantMessage (x : Message) (r : Response) :
    ToolPlacement x (assistantMessage r) := by
  intro habs
  simp [assistantMessage] at habs

/-- The transcript invariant is preserved by every completed run, whatever
transcript the loop starts from. -/
theorem runLoop_transcript_shape (world : World) :
    ∀ (script : List Response) (ms : List Message) (out : RunResult),
    runLoop world script ms = some out →
    List.Chain' ToolPlacement ms →
    (∀ m ∈ ms.head?, m.role ≠ Role.tool) →
    ms.countP isToolRole = ms.countP isDispatchAssistant →
    List.Chain' ToolPlacement out.transcript ∧
    (∀ m ∈ out.transcript.head?, m.role ≠ Role.tool) ∧
    out.transcript.countP isToolRole = out.transcript.countP isDispatchAssistant := by
  intro script
  induction script with
  | nil =>
      intro ms out h _ _ _
      simp [runLoop] at h
  | cons r rest ih =>
      intro ms out h hchain hhead hcount
      have hchain1 : ∀ (l : List Message),
          List.Chain' ToolPlacement l → List.Chain' ToolPlacement (l ++ [assistantMessage r]) := by
        intro l hl
        rw [List.chain'_append]
        refine ⟨hl, List.chain'_singleton _, ?_⟩
        intro x _ y hy
        simp only [List.head?_cons, Option.mem_def, Option.some.injEq] at hy
        subst hy
        exact toolPlacement_to_assistantMessage x r
      have hhead1 : ∀ m ∈ (ms ++ [assistantMessage r]).head?, m.role ≠ Role.tool := by
        intro m hm
        cases ms with
        | nil =>
            simp only [List.nil_append, List.head?_cons, Option.mem_def,
              Option.some.injEq] at hm
            subst hm
            simp [assistantMessage]
        | cons a l =>
            simp only [List.cons_append, List.head?_cons, Option.mem_def,
              Option.some.injEq] at hm
            subst hm
            exact hhead a (by simp)
      rcases hr : r.message.tool_calls with _ | tcs
      · simp only [runLoop] at h
        rw [hr] at h
        simp only [Option.some.injEq] at h
        subst h
        refine ⟨hchain1 ms hchain, hhead1, ?_⟩
        simp [List.countP_append, List.countP_cons, isToolRole, isDispatchAssistant,
          assistantMessage, nonemptyToolCalls, hr, hcount]
      · cases tcs with
        | nil =>
            simp only [runLoop] at h
            rw [hr] at h
            simp only [Option.some.injEq] at h
            subst h
            refine ⟨hchain1 ms hchain, hhead1, ?_⟩
            simp [List.countP_append, List.countP_cons, isToolRole, isDispatchAssistant,
              assistantMessage, nonemptyToolCalls, hr, hcount]
        | cons tc tcs2 =>
            simp only [runLoop] at h
            rw [hr] at h
            simp only [Option.map_eq_some'] at h
            rcases h with ⟨o, ho, hout⟩
            have hms2 : ms ++ [assistantMessage r, toolMessage world tc] =
                (ms ++ [assistantMessage r]) ++ [toolMessage world tc] := by
              simp
            have hchain2 : List.Chain' ToolPlacement
                (ms ++ [assistantMessage r, toolMessage world tc]) := by
              rw [hms2, List.chain'_append]
              refine ⟨hchain1 ms hchain, List.chain'_singleton _, ?_⟩
              intro x hx y hy
              simp only [List.head?_cons, Option.mem_def, Option.some.injEq] at hy
              subst hy
              intro _
              rw [List.getLast?_append_cons] at hx
              simp only [List.getLast?_singleton, Option.mem_def, Option.some.injEq] at hx
              subst hx
              refine ⟨rfl, ?_⟩
              unfold nonemptyToolCalls assistantMessage
              simp [hr]
            have hhead2 : ∀ m ∈ (ms ++ [assistantMessage r, toolMessage world tc]).head?,
                m.role ≠ Role.tool := by
              intro m hm
              cases ms with
              | nil =>
                  simp only [List.nil_append, List.head?_cons, Option.mem_def,
                    Option.some.injEq] at hm
                  subst hm
                  simp [assistantMessage]
              | cons a l =>
                  simp only [List.cons_append, List.head?_cons, Option.mem_def,
                    Option.some.injEq] at hm
                  subst hm
                  exact hhead a (by simp)
            have hcount2 : (ms ++ [assistantMessage r, toolMessage world tc]).countP isToolRole =
                (ms ++ [assistantMessage r, toolMessage world tc]).countP isDispatchAssistant := by
              simp [List.countP_append, List.countP_cons, hcount,
                isToolRole_toolMessage, isDispatchAssistant_toolMessage]
              simp [isToolRole, isDispatchAssistant, assistantMessage, nonemptyToolCalls, hr]
            have key := ih (ms ++ [assistantMessage r, toolMessage world tc]) o ho
              hchain2 hhead2 hcount2
            subst hout
            exact key

/-- C8: in every transcript produced by a completed run from the seed user
message, every tool-role message stands immediately after an assistant
message whose `tool_calls` sequence is non-empty (and the transcript
never begins with a tool message), and the number of tool messages
equals the number of assistant messages that requested at least one tool
call. -/
theorem c8_tool_messages_match_dispatching_assistants (world : World)
    (script : List Response) (prompt : String) (out : RunResult)
    (h : runLoop world script (seedMessages prompt) = some out) :
    List.Chain' ToolPlacement out.transcript ∧
    (∀ m ∈ out.transcript.head?, m.role ≠ Role.tool) ∧
    out.transcript.countP isToolRole = out.transcript.countP isDispatchAssistant := by
  refine runLoop_transcript_shape world script (seedMessages prompt) out h ?_ ?_ ?_
  · simp [seedMessages]
  · intro m hm
    simp only [seedMessages, List.head?_cons, Option.mem_def, Option.some.injEq] at hm
    subst hm
    simp
  · simp [seedMessages, List.countP_cons, isToolRole, isDispatchAssistant]

theorem c8_witness :
    List.Chain' ToolPlacement twoTurnOut.transcript ∧
    (∀ m ∈ twoTurnOut.transcript.head?, m.role ≠ Role.tool) ∧
    twoTurnOut.transcript.countP isToolRole =
      twoTurnOut.transcript.countP isDispatchAssistant :=
  c8_tool_messages_match_dispatching_assistants stubWorld twoTurnScript "now?" twoTurnOut
    (by decide)

end LlmTools
